import Mathlib

/-!
Shallow embedding of `src/HomeWindow.cpp` / `src/HomeWindow.h`
(repository SlideApp0.1): a single-window Qt form with two mutually
exclusive mode buttons (Researcher / Admin), two line edits (user name,
output directory) and a Begin button.

Modelling notes, traced against the source:
- `HomeWindow` owns five widgets (HomeWindow.h lines 21-25).  The
  observable form state is: the checked flag of each mode button, the
  per-button style sheet strings set by `setModeResearcher` /
  `setModeAdmin`, the text of the two line edits, and the window-level
  style sheet set by `applyStyles`.
- The two mode buttons are put in a `QButtonGroup` with
  `setExclusive(true)` (HomeWindow.cpp lines 39-42), so `setChecked(true)`
  on one of them unchecks the other; `checkResearcher` / `checkAdmin`
  embed that toolkit behaviour.
- `setupUi` (lines 19-120) creates the widgets (line edits start with
  empty text), initialises the output-directory edit from the platform
  downloads location with a `<home>/Downloads` fallback (lines 85-89),
  checks the Researcher button and calls `setModeResearcher`
  (lines 115-116), and connects ONLY the two mode buttons' `clicked`
  signals (lines 118-119).  No slot is ever connected to `beginButton_`,
  and no `submit` member exists anywhere in the repository, so clicking
  Begin runs no handler.
- The platform lookups `QStandardPaths::writableLocation(DownloadLocation)`
  and `QDir::homePath()` are the only external inputs of construction;
  they are passed in as an `Env`.
-/

namespace SlideApp

/-- The two operating modes of the form (spec enum {Researcher, Admin});
in the source the mode is carried by which of the two grouped buttons is
checked. -/
inductive Mode where
  | researcher
  | admin
deriving DecidableEq

/-- The external inputs read during construction: the platform-reported
downloads location (`QStandardPaths::writableLocation(DownloadLocation)`,
empty string when the lookup yields nothing, matching `QString()`s
`isEmpty`) and the home path (`QDir::homePath()`). -/
structure Env where
  downloadLocation : String
  homePath : String
deriving DecidableEq

/-- Observable state of the `HomeWindow` form: checked flags and style
sheets of the two mode buttons, the texts of the two line edits, and the
window-level style sheet. -/
structure State where
  researcherChecked : Bool
  adminChecked : Bool
  researcherStyle : String
  adminStyle : String
  userText : String
  outputDirText : String
  windowStyle : String
deriving DecidableEq

/-- Style sheet applied to the Researcher button when it is the active
mode (HomeWindow.cpp lines 161-169; adjacent C string literals
concatenate). -/
def researcherActiveStyle : String :=
  "QPushButton \x7b  background: #84F28A;  color: #000000;  border: none;  border-radius: 11px;  padding: 10px 18px;  font-size: 25px;\x7d"

/-- Style sheet applied to the Admin button when it is the active mode
(HomeWindow.cpp lines 185-193). -/
def adminActiveStyle : String :=
  "QPushButton \x7b  background: #F26565;  color: #000000;  border: none;  border-radius: 11px;  padding: 10px 18px;  font-size: 25px;\x7d"

/-- Neutral style sheet applied to whichever mode button is inactive
(HomeWindow.cpp lines 171-179 and 195-203, identical strings). -/
def inactiveModeStyle : String :=
  "QPushButton \x7b  background: #d9d9d9;  color: #111111;  border: none;  border-radius: 11px;  padding: 10px 18px;  font-size: 25px;\x7d"

/-- Window-level style sheet installed by `HomeWindow::applyStyles`
(HomeWindow.cpp lines 122-156; adjacent C string literals concatenate). -/
def homeWindowStyleSheet : String :=
  "QMainWindow \x7b background: #000000; \x7dQWidget \x7b color: #f2f2f2; font-family: \x27Helvetica Neue\x27; \x7dQLabel#titleLabel \x7b font-size: 78px; font-weight: 300; letter-spacing: 1px; \x7dQLabel#fieldLabel \x7b font-size: 42px; font-weight: 400; \x7dQLineEdit#fieldInput \x7b  background: transparent;  border: none;  color: #ffffff;  font-size: 42px;  font-weight: 400;  padding: 0;\x7dQPushButton \x7b  background: #d9d9d9;  color: #111111;  border: none;  border-radius: 11px;  padding: 10px 18px;  font-size: 25px;\x7dQPushButton:hover \x7b background: #ececec; \x7dQPushButton:pressed \x7b background: #bbbbbb; \x7dQPushButton#beginButton \x7b  background: #84F28A;  color: #000000;  border-radius: 36px;  font-size: 58px;  font-weight: 500;  padding-bottom: 8px;\x7dQPushButton#beginButton:hover \x7b background: #95f69a; \x7dQPushButton#beginButton:pressed \x7b background: #76e87d; \x7d"

/-- `researcherButton_->setChecked(true)` for a button in the exclusive
`QButtonGroup` of HomeWindow.cpp lines 39-42: checking it unchecks the
other button of the group. -/
def checkResearcher (s : State) : State :=
  { s with researcherChecked := true, adminChecked := false }

/-- `adminButton_->setChecked(true)` under the same exclusive group. -/
def checkAdmin (s : State) : State :=
  { s with adminChecked := true, researcherChecked := false }

/-- Embedding of `HomeWindow::setModeResearcher` (HomeWindow.cpp lines
158-180): check the Researcher button, give it the green active style,
give the Admin button the neutral style. -/
def setModeResearcher (s : State) : State :=
  { checkResearcher s with
      researcherStyle := researcherActiveStyle
      adminStyle := inactiveModeStyle }

/-- Embedding of `HomeWindow::setModeAdmin` (HomeWindow.cpp lines
182-204): check the Admin button, give it the red active style, give the
Researcher button the neutral style. -/
def setModeAdmin (s : State) : State :=
  { checkAdmin s with
      adminStyle := adminActiveStyle
      researcherStyle := inactiveModeStyle }

/-- Embedding of `HomeWindow::setupUi` (HomeWindow.cpp lines 19-120).
Fresh `QPushButton`s are unchecked with no widget style sheet; fresh
`QLineEdit`s hold empty text.  Lines 85-89 compute the initial output
directory (platform downloads location, or `<home>/Downloads` when that
lookup is empty) and set it on `outputDirEdit_`; no text is ever set on
`userEdit_`.  Lines 115-116 check the Researcher button and invoke
`setModeResearcher`. -/
def setupUi (env : Env) : State :=
  let downloads := env.downloadLocation
  let downloads := if downloads.isEmpty then env.homePath ++ "/Downloads" else downloads
  let s : State :=
    { researcherChecked := false
      adminChecked := false
      researcherStyle := ""
      adminStyle := ""
      userText := ""
      outputDirText := downloads
      windowStyle := "" }
  setModeResearcher (checkResearcher s)

/-- Embedding of `HomeWindow::applyStyles` (HomeWindow.cpp lines
122-156): installs the fixed window-level style sheet; touches nothing
else. -/
def applyStyles (s : State) : State :=
  { s with windowStyle := homeWindowStyleSheet }

/-- Embedding of the constructor `HomeWindow::HomeWindow` (HomeWindow.cpp
lines 13-17): `setupUi(); applyStyles();`. -/
def construct (env : Env) : State :=
  applyStyles (setupUi env)

/-- The mode currently selected, as carried by the exclusive button
group: Researcher iff the Researcher button is checked. -/
def mode (s : State) : Mode :=
  if s.researcherChecked then Mode.researcher else Mode.admin

/-- User-input events the window reacts to: clicking either mode button
(whose `clicked` signals are connected at HomeWindow.cpp lines 118-119),
clicking the Begin button (to which no slot is connected), and editing
either line edit. -/
inductive Event where
  | clickResearcher
  | clickAdmin
  | clickBegin
  | editUser (t : String)
  | editOutputDir (t : String)
deriving DecidableEq

/-- One datum handed to the downstream collaborator on submit, as the
spec describes it: the current mode and the two field texts. -/
structure Submission where
  submittedMode : Mode
  userName : String
  outputDirectory : String
deriving DecidableEq

/-- Effect of one event on the window state.  The mode buttons run their
connected slots (HomeWindow.cpp lines 118-119); a click on a checkable
button first toggles its group state, but the slot then forces the same
checked assignment, so the composite equals the slot.  `clickBegin` has
no connected slot anywhere in the repository, so it leaves the state
unchanged.  Editing a `QLineEdit` stores the typed text verbatim; no
handler is connected to either edit. -/
def step : Event → State → State
  | Event.clickResearcher, s => setModeResearcher s
  | Event.clickAdmin, s => setModeAdmin s
  | Event.clickBegin, s => s
  | Event.editUser t, s => { s with userText := t }
  | Event.editOutputDir t, s => { s with outputDirText := t }

/-- Values handed to the external collaborator by one event.  No event
hands anything over: the repository contains no `submit` member and no
`connect` involving `beginButton_`, so clicking Begin emits nothing. -/
def emits : Event → State → List Submission
  | Event.clickResearcher, _ => []
  | Event.clickAdmin, _ => []
  | Event.clickBegin, _ => []
  | Event.editUser _, _ => []
  | Event.editOutputDir _, _ => []

/-- State after running a sequence of events. -/
def runState : List Event → State → State
  | [], s => s
  | e :: es, s => runState es (step e s)

/-- Everything handed to the external collaborator while running a
sequence of events, in order. -/
def runLog : List Event → State → List Submission
  | [], _ => []
  | e :: es, s => emits e s ++ runLog es (step e s)

/-- Step relation of the window, one constructor per reaction the source
defines for an event; there is no failure constructor because no handler
in HomeWindow.cpp has an error branch. -/
inductive Step : State → Event → State → Prop where
  | clickResearcher (s : State) : Step s Event.clickResearcher (setModeResearcher s)
  | clickAdmin (s : State) : Step s Event.clickAdmin (setModeAdmin s)
  | clickBegin (s : State) : Step s Event.clickBegin s
  | editUser (s : State) (t : String) :
      Step s (Event.editUser t) { s with userText := t }
  | editOutputDir (s : State) (t : String) :
      Step s (Event.editOutputDir t) { s with outputDirText := t }

/-- Exactly one of the two mode buttons is checked. -/
def exactlyOneActive (s : State) : Prop :=
  (s.researcherChecked = true ∧ s.adminChecked = false) ∨
  (s.researcherChecked = false ∧ s.adminChecked = true)

/-- The mode-relevant view of the state: selected mode, the two checked
flags and the two mode-button styles. -/
def modeView (s : State) : Mode × Bool × Bool × String × String :=
  (mode s, s.researcherChecked, s.adminChecked, s.researcherStyle, s.adminStyle)

/-- Whether an event is one of the two mode selections. -/
def isModeSelection : Event → Bool
  | Event.clickResearcher => true
  | Event.clickAdmin => true
  | _ => false

theorem exactlyOneActive_step (s : State) (e : Event)
    (h : exactlyOneActive s) : exactlyOneActive (step e s) := by
  cases e with
  | clickResearcher =>
      exact Or.inl ⟨rfl, rfl⟩
  | clickAdmin =>
      exact Or.inr ⟨rfl, rfl⟩
  | clickBegin => exact h
  | editUser t => exact h
  | editOutputDir t => exact h

theorem exactlyOneActive_runState (es : List Event) (s : State)
    (h : exactlyOneActive s) : exactlyOneActive (runState es s) := by
  induction es generalizing s with
  | nil => exact h
  | cons e es ih => exact ih (step e s) (exactlyOneActive_step s e h)

theorem runState_append (as bs : List Event) (s : State) :
    runState (as ++ bs) s = runState bs (runState as s) := by
  induction as generalizing s with
  | nil => rfl
  | cons a as ih => simpa [runState] using ih (step a s)

theorem modeView_step_const (e : Event) (h : isModeSelection e = true)
    (s₁ s₂ : State) : modeView (step e s₁) = modeView (step e s₂) := by
  cases e with
  | clickResearcher => rfl
  | clickAdmin => rfl
  | clickBegin => exact absurd h (by simp [isModeSelection])
  | editUser t => exact absurd h (by simp [isModeSelection])
  | editOutputDir t => exact absurd h (by simp [isModeSelection])

theorem step_mode_idempotent (e : Event) (h : isModeSelection e = true)
    (s : State) : step e (step e s) = step e s := by
  cases e with
  | clickResearcher => rfl
  | clickAdmin => rfl
  | clickBegin => exact absurd h (by simp [isModeSelection])
  | editUser t => exact absurd h (by simp [isModeSelection])
  | editOutputDir t => exact absurd h (by simp [isModeSelection])

/-- C1 counterexample: the claimed scenario fails on the code.  Starting
from a freshly constructed window, editing the user field to "alice" and
the output-directory field to "/tmp/out" and then clicking Begin delivers
NOTHING to the external collaborator — no slot is connected to the Begin
button, so the triple (Researcher, "alice", "/tmp/out") is never handed
over. -/
theorem begin_click_delivers_nothing_counterexample :
    (⟨Mode.researcher, "alice", "/tmp/out"⟩ : Submission) ∉
      runLog [Event.editUser "alice", Event.editOutputDir "/tmp/out",
              Event.clickBegin]
        (construct ⟨"/home/user/Downloads", "/home/user"⟩) ∧
    runLog [Event.editUser "alice", Event.editOutputDir "/tmp/out",
            Event.clickBegin]
        (construct ⟨"/home/user/Downloads", "/home/user"⟩) = [] := by
  constructor
  · simp [runLog, emits]
  · rfl

/-- C1 (amended): activating the submit control (Begin button) runs no
handler: the repository connects no slot to it, so the click changes no
state and hands no values — in particular not (mode, userName,
outputDirectory) — to any collaborator. -/
theorem begin_click_is_noop (s : State) :
    step Event.clickBegin s = s ∧ emits Event.clickBegin s = [] :=
  ⟨rfl, rfl⟩

/-- C2: after construction, for every sequence of events (in particular
every sequence of mode selections), exactly one of the two mode controls
is checked after each step, and the two are never simultaneously
checked. -/
theorem mode_buttons_mutually_exclusive (env : Env) (es : List Event) :
    exactlyOneActive (runState es (construct env)) :=
  exactlyOneActive_runState es (construct env) (Or.inl ⟨rfl, rfl⟩)

/-- C3: immediately after construction the mode is Researcher — the
Researcher button is checked and carries the active (highlight) style,
and the Admin button is unchecked and carries the neutral style. -/
theorem initial_state_researcher (env : Env) :
    mode (construct env) = Mode.researcher ∧
    (construct env).researcherChecked = true ∧
    (construct env).researcherStyle = researcherActiveStyle ∧
    (construct env).adminChecked = false ∧
    (construct env).adminStyle = inactiveModeStyle :=
  ⟨rfl, rfl, rfl, rfl, rfl⟩

/-- C4: immediately after construction the output directory equals the
platform-reported downloads location when that lookup is non-empty, and
otherwise equals the home path concatenated with "/Downloads". -/
theorem outputDirectory_initial_value (env : Env) :
    (¬ env.downloadLocation.isEmpty = true →
      (construct env).outputDirText = env.downloadLocation) ∧
    (env.downloadLocation.isEmpty = true →
      (construct env).outputDirText = env.homePath ++ "/Downloads") := by
  constructor
  · intro h
    simp [construct, setupUi, applyStyles, setModeResearcher, checkResearcher, h]
  · intro h
    simp [construct, setupUi, applyStyles, setModeResearcher, checkResearcher, h]

theorem outputDirectory_initial_value_witness :
    (construct ⟨"/media/dl", "/home/user"⟩).outputDirText = "/media/dl" ∧
    (construct ⟨"", "/home/user"⟩).outputDirText = "/home/user" ++ "/Downloads" :=
  ⟨(outputDirectory_initial_value ⟨"/media/dl", "/home/user"⟩).1 (by decide),
   (outputDirectory_initial_value ⟨"", "/home/user"⟩).2 (by decide)⟩

/-- C5: editing either text field leaves the mode unchanged, and either
mode selection leaves the text of both fields unchanged, for every state
and every edited text. -/
theorem fields_and_mode_do_not_interfere (s : State) (t u : String) :
    mode (step (Event.editUser t) s) = mode s ∧
    mode (step (Event.editOutputDir u) s) = mode s ∧
    (step Event.clickResearcher s).userText = s.userText ∧
    (step Event.clickResearcher s).outputDirText = s.outputDirText ∧
    (step Event.clickAdmin s).userText = s.userText ∧
    (step Event.clickAdmin s).outputDirText = s.outputDirText :=
  ⟨rfl, rfl, rfl, rfl, rfl, rfl⟩

/-- C6: every operation is total with no failure mode: from every state,
every event has exactly one successor under the step relation (which has
no error constructor), and that successor is the one computed by the
total function `step`. -/
theorem operations_total_no_failure (s : State) (e : Event) :
    (∃! s2 : State, Step s e s2) ∧ Step s e (step e s) := by
  cases e with
  | clickResearcher =>
      exact ⟨⟨setModeResearcher s, Step.clickResearcher s,
        fun y h => by cases h; rfl⟩, Step.clickResearcher s⟩
  | clickAdmin =>
      exact ⟨⟨setModeAdmin s, Step.clickAdmin s,
        fun y h => by cases h; rfl⟩, Step.clickAdmin s⟩
  | clickBegin =>
      exact ⟨⟨s, Step.clickBegin s, fun y h => by cases h; rfl⟩,
        Step.clickBegin s⟩
  | editUser t =>
      exact ⟨⟨{ s with userText := t }, Step.editUser s t,
        fun y h => by cases h; rfl⟩, Step.editUser s t⟩
  | editOutputDir t =>
      exact ⟨⟨{ s with outputDirText := t }, Step.editOutputDir s t,
        fun y h => by cases h; rfl⟩, Step.editOutputDir s t⟩

/-- C7: from any previous state, `setModeAdmin` selects the Admin mode,
marks the Admin control active with a highlight style distinct from the
Researcher control's highlight style, and marks the Researcher control
inactive (neutral). -/
theorem setModeAdmin_overrides (s : State) :
    mode (setModeAdmin s) = Mode.admin ∧
    (setModeAdmin s).adminChecked = true ∧
    (setModeAdmin s).adminStyle = adminActiveStyle ∧
    (setModeAdmin s).researcherChecked = false ∧
    (setModeAdmin s).researcherStyle = inactiveModeStyle ∧
    adminActiveStyle ≠ researcherActiveStyle :=
  ⟨rfl, rfl, rfl, rfl, rfl, by decide⟩

/-- C8: the user-name field has no default — its text is empty right
after construction — and the component never validates or modifies it: an
edit stores the typed text verbatim, and every other event leaves it
untouched. -/
theorem userName_empty_default_untouched (env : Env) (s : State)
    (t u : String) :
    (construct env).userText = "" ∧
    (step (Event.editUser t) s).userText = t ∧
    (step Event.clickResearcher s).userText = s.userText ∧
    (step Event.clickAdmin s).userText = s.userText ∧
    (step Event.clickBegin s).userText = s.userText ∧
    (step (Event.editOutputDir u) s).userText = s.userText :=
  ⟨rfl, rfl, rfl, rfl, rfl, rfl⟩

/-- C9: mode selection is history-independent and idempotent: after any
sequence of mode selections ending in `e`, the mode and both mode-button
styles are exactly those produced by `e` alone, and repeating the same
selection changes nothing. -/
theorem mode_selection_last_call_wins (s : State) (es : List Event)
    (e : Event) (he : isModeSelection e = true)
    (hes : ∀ x ∈ es, isModeSelection x = true) :
    modeView (runState (es ++ [e]) s) = modeView (step e s) ∧
    step e (step e s) = step e s := by
  refine ⟨?_, step_mode_idempotent e he s⟩
  rw [runState_append]
  exact modeView_step_const e he (runState es s) s

theorem mode_selection_last_call_wins_witness :
    modeView (runState ([Event.clickAdmin] ++ [Event.clickResearcher])
        (construct ⟨"/dl", "/home"⟩)) =
      modeView (step Event.clickResearcher (construct ⟨"/dl", "/home"⟩)) ∧
    step Event.clickResearcher
        (step Event.clickResearcher (construct ⟨"/dl", "/home"⟩)) =
      step Event.clickResearcher (construct ⟨"/dl", "/home"⟩) :=
  mode_selection_last_call_wins (construct ⟨"/dl", "/home"⟩)
    [Event.clickAdmin] Event.clickResearcher (by decide) (by decide)

/-- C10: construction is deterministic in the platform lookups: two
constructions observing the same downloads location and the same home
path produce identical initial states (same mode, same user name, same
output directory, same styles). -/
theorem construction_deterministic (env₁ env₂ : Env)
    (hd : env₁.downloadLocation = env₂.downloadLocation)
    (hh : env₁.homePath = env₂.homePath) :
    construct env₁ = construct env₂ := by
  cases env₁
  cases env₂
  cases hd
  cases hh
  rfl

theorem construction_deterministic_witness :
    construct ⟨"/data/dl", "/root"⟩ = construct ⟨"/data/dl", "/root"⟩ :=
  construction_deterministic ⟨"/data/dl", "/root"⟩ ⟨"/data/dl", "/root"⟩
    rfl rfl

end SlideApp
